import Mathlib

/-!
Shallow embedding of the restaurant–pizza CRUD API (`server/app.py`) and
proofs about its request handlers.  The relational store is modelled as
explicit lists of rows; each handler becomes a pure function from the store
(and the request data) to a response, returning the updated store where the
source writes.  Pieces that live in the repository's `models.py` (which is
not part of the given sources) — the price validator, the cascade rule and
the serializer field selections — are modelled from the spec and marked as
such in their doc comments.
-/

namespace PizzaAPI

/-- JSON values, the shape of every request and response body.  `Json.null`
doubles as Python's `None` (the value `dict.get` returns for an absent key). -/
inductive Json where
  | null : Json
  | bool : Bool → Json
  | num : Int → Json
  | str : String → Json
  | arr : List Json → Json
  | obj : List (String × Json) → Json

/-- A `restaurants` table row: id, name, address. -/
structure Restaurant where
  id : Int
  name : String
  address : String
deriving DecidableEq

/-- A `pizzas` table row: id, name, ingredients. -/
structure Pizza where
  id : Int
  name : String
  ingredients : String
deriving DecidableEq

/-- A `restaurant_pizzas` association row: id, price and the two foreign keys. -/
structure RestaurantPizza where
  id : Int
  price : Int
  restaurant_id : Int
  pizza_id : Int
deriving DecidableEq

/-- The relational store: the three tables. -/
structure Store where
  restaurants : List Restaurant
  pizzas : List Pizza
  restaurant_pizzas : List RestaurantPizza
deriving DecidableEq

/-- An HTTP response: status code and optional JSON body (`none` models the
empty non-JSON body of `make_response("", 204)`). -/
structure Response where
  status : Nat
  body : Option Json

/-- Embeds `make_error_response(message, status_code)`:
`{"error": message}` with the given status. -/
def make_error_response (message : String) (status_code : Nat) : Response :=
  { status := status_code, body := some (Json.obj [("error", Json.str message)]) }

/-- Embeds `make_validation_error_response(errors, status_code)` (the source
default `status_code=400` is passed explicitly at every call site here):
`{"errors": errors}` with the given status. -/
def make_validation_error_response (errors : List String) (status_code : Nat) : Response :=
  { status := status_code,
    body := some (Json.obj [("errors", Json.arr (errors.map Json.str))]) }

/-- Embeds `Restaurant.query.get(id)`: primary-key lookup in the
`restaurants` table. -/
def Store.getRestaurant (s : Store) (id : Int) : Option Restaurant :=
  s.restaurants.find? (fun r => r.id == id)

/-- Embeds `Pizza.query.get(id)`: primary-key lookup in the `pizzas` table. -/
def Store.getPizza (s : Store) (id : Int) : Option Pizza :=
  s.pizzas.find? (fun p => p.id == id)

/-- Modelled from the spec: `Restaurant.to_dict(rules=('-restaurant_pizzas',))`
from the missing `models.py` serializes exactly the base fields
id, name, address, excluding the association collection. -/
def Restaurant.to_dict (r : Restaurant) : Json :=
  Json.obj [("id", Json.num r.id), ("name", Json.str r.name),
    ("address", Json.str r.address)]

/-- Modelled from the spec: `Pizza.to_dict(rules=('-restaurant_pizzas',))`
from the missing `models.py` serializes exactly the base fields
id, name, ingredients, excluding the association collection. -/
def Pizza.to_dict (p : Pizza) : Json :=
  Json.obj [("id", Json.num p.id), ("name", Json.str p.name),
    ("ingredients", Json.str p.ingredients)]

/-- Embeds `Restaurants.get`: serialize every restaurant row without its
association collection, status 200. -/
def Restaurants_get (s : Store) : Response :=
  { status := 200,
    body := some (Json.arr (s.restaurants.map Restaurant.to_dict)) }

/-- Embeds `Pizzas.get`: serialize every pizza row without its association
collection, status 200. -/
def Pizzas_get (s : Store) : Response :=
  { status := 200,
    body := some (Json.arr (s.pizzas.map Pizza.to_dict)) }

/-- The association rows owned by restaurant `rid`
(the `restaurant.restaurant_pizzas` relationship collection). -/
def ownedRPs (s : Store) (rid : Int) : List RestaurantPizza :=
  s.restaurant_pizzas.filter (fun rp => rp.restaurant_id == rid)

/-- One entry of the manually built `pizzas` array in `RestaurantByID.get`:
id, name, ingredients from the linked Pizza (`rp.pizza`) and price from the
association row itself.  The `Json.null` branch is unreachable whenever the
foreign key resolves, as the non-null `rp.pizza` relationship guarantees in
the source. -/
def pizzaEntry (s : Store) (rp : RestaurantPizza) : Json :=
  match s.getPizza rp.pizza_id with
  | some p =>
      Json.obj [("id", Json.num p.id), ("name", Json.str p.name),
        ("ingredients", Json.str p.ingredients), ("price", Json.num rp.price)]
  | none => Json.null

/-- Embeds `RestaurantByID.get`: 404 `{"error": "Restaurant not found"}` when
the id does not resolve; otherwise the base fields plus the manually built
`pizzas` array, status 200. -/
def RestaurantByID_get (s : Store) (id : Int) : Response :=
  match s.getRestaurant id with
  | none => make_error_response "Restaurant not found" 404
  | some r =>
      { status := 200,
        body := some (Json.obj
          [("id", Json.num r.id), ("name", Json.str r.name),
           ("address", Json.str r.address),
           ("pizzas", Json.arr ((ownedRPs s r.id).map (pizzaEntry s)))]) }

/-- Embeds `RestaurantByID.delete`.  A commit failure is modelled by the
environment parameter `fail`: `none` means `db.session.commit()` succeeds,
`some msg` means it raises an exception whose string form is `msg`.
The cascade to the owned association rows is modelled from the spec
(`cascade="all, delete-orphan"` lives in the missing `models.py`); the
primary key is unique, so removing every row with the matched id removes
exactly the one fetched row. -/
def RestaurantByID_delete (s : Store) (id : Int) (fail : Option String) :
    Response × Store :=
  match s.getRestaurant id with
  | none => (make_error_response "Restaurant not found" 404, s)
  | some r =>
      match fail with
      | none =>
          ({ status := 204, body := none },
           { restaurants := s.restaurants.filter (fun x => !(x.id == r.id)),
             pizzas := s.pizzas,
             restaurant_pizzas :=
               s.restaurant_pizzas.filter (fun rp => !(rp.restaurant_id == r.id)) })
      | some msg =>
          (make_error_response ("Failed to delete restaurant: " ++ msg) 500, s)

/-- Is this JSON value Python's `None`?  `x is not None` in the source is
`¬ x.isNull` here. -/
def Json.isNull : Json → Bool
  | Json.null => true
  | _ => false

/-- Embeds `data.get(key)` on the parsed request dict: the stored value when
the key is present, Python `None` (= `Json.null`) when absent. -/
def dictGet (kvs : List (String × Json)) (key : String) : Json :=
  match kvs.lookup key with
  | some v => v
  | none => Json.null

/-- The integer a JSON value denotes as a primary-key argument; any
non-integer value resolves no row (so the lookup yields `none`). -/
def Json.asId : Json → Option Int
  | Json.num n => some n
  | _ => none

/-- `Restaurant.query.get` applied to the raw request value. -/
def Store.getRestaurantJson (s : Store) (v : Json) : Option Restaurant :=
  match v.asId with
  | some n => s.getRestaurant n
  | none => none

/-- `Pizza.query.get` applied to the raw request value. -/
def Store.getPizzaJson (s : Store) (v : Json) : Option Pizza :=
  match v.asId with
  | some n => s.getPizza n
  | none => none

/-- Modelled from the spec: the message the `@validates("price")` validator
in the missing `models.py` raises a `ValueError` with when the price is not
an integer in [1, 30]. -/
def priceErrorMessage : String := "Price must be between 1 and 30"

/-- Modelled from the spec: the `@validates("price")` validator on
`RestaurantPizza` in the missing `models.py` — the price must be an integer
in [1, 30] inclusive, otherwise a `ValueError` with a price-range message is
raised when the attribute is assigned. -/
def validate_price : Json → Except String Int
  | Json.num n =>
      if 1 ≤ n ∧ n ≤ 30 then Except.ok n else Except.error priceErrorMessage
  | _ => Except.error priceErrorMessage

/-- The generated primary key for a new association row: one more than the
largest id in the table (fresh, as an autoincrement key is). -/
def Store.nextRpId (s : Store) : Int :=
  (s.restaurant_pizzas.foldr (fun rp m => max rp.id m) 0) + 1

/-- Modelled from the spec: `RestaurantPizza.to_dict()` in the missing
`models.py` serializes id, price and the two foreign keys plus nested
restaurant and pizza objects, without looping back through the association
lists on either side. -/
def RestaurantPizza.to_dict (rp : RestaurantPizza) (r : Restaurant) (p : Pizza) :
    Json :=
  Json.obj [("id", Json.num rp.id), ("price", Json.num rp.price),
    ("pizza_id", Json.num rp.pizza_id), ("restaurant_id", Json.num rp.restaurant_id),
    ("pizza", p.to_dict), ("restaurant", r.to_dict)]

/-- What `db.session.commit()` does on the create path, chosen by the
environment: succeed, raise `IntegrityError`, or raise some other exception. -/
inductive CommitOutcome where
  | ok : CommitOutcome
  | integrityError : CommitOutcome
  | otherError : String → CommitOutcome
deriving DecidableEq

/-- The outcome of the POST handler: a response together with the store it
leaves behind, or an exception escaping the handler uncaught (the store it
carries is the untouched one). -/
inductive PostOutcome where
  | response : Response → Store → PostOutcome
  | crash : Store → PostOutcome

/-- Did the handler itself produce a response (rather than crash)? -/
def PostOutcome.isResponse : PostOutcome → Bool
  | PostOutcome.response _ _ => true
  | PostOutcome.crash _ => false

/-- Embeds `RestaurantPizzas.post`.  `body` is the parsed JSON request body;
`data.get` on a non-dict raises `AttributeError` outside the `try` block, so
a non-object body crashes the handler.  The validation order follows the
source: presence of the three fields, then restaurant existence, then pizza
existence, then construction (where the modelled price validator may raise
`ValueError`), then commit (whose outcome `co` the environment chooses). -/
def RestaurantPizzas_post (s : Store) (body : Json) (co : CommitOutcome) :
    PostOutcome :=
  match body with
  | Json.obj kvs =>
      let price := dictGet kvs "price"
      let pizza_id := dictGet kvs "pizza_id"
      let restaurant_id := dictGet kvs "restaurant_id"
      if price.isNull || pizza_id.isNull || restaurant_id.isNull then
        PostOutcome.response (make_validation_error_response
          ["Missing required fields: price, pizza_id, restaurant_id"] 400) s
      else
        match s.getRestaurantJson restaurant_id with
        | none => PostOutcome.response (make_error_response "Restaurant not found" 404) s
        | some restaurant =>
            match s.getPizzaJson pizza_id with
            | none => PostOutcome.response (make_error_response "Pizza not found" 404) s
            | some pizza =>
                match validate_price price with
                | Except.error msg =>
                    PostOutcome.response (make_validation_error_response [msg] 400) s
                | Except.ok priceVal =>
                    match co with
                    | CommitOutcome.ok =>
                        let new_rp : RestaurantPizza :=
                          { id := s.nextRpId, price := priceVal,
                            -- the raw request ids: equal to the fetched rows'
                            -- primary keys, since the lookups matched on them
                            restaurant_id := restaurant.id, pizza_id := pizza.id }
                        PostOutcome.response
                          { status := 201,
                            body := some (new_rp.to_dict restaurant pizza) }
                          { s with restaurant_pizzas := s.restaurant_pizzas ++ [new_rp] }
                    | CommitOutcome.integrityError =>
                        PostOutcome.response (make_validation_error_response
                          ["A database integrity error occurred (e.g., invalid ID or duplicate entry)."] 400) s
                    | CommitOutcome.otherError msg =>
                        PostOutcome.response (make_error_response
                          ("An unexpected server error occurred: " ++ msg) 500) s
  | _ => PostOutcome.crash s

/-- Does the response body carry an `"error"` or `"errors"` key? -/
def hasErrorKeys : Option Json → Bool
  | some (Json.obj kvs) => kvs.any (fun kv => kv.fst == "error" || kv.fst == "errors")
  | _ => false

/-! ### Sample rows and stores used by the witness theorems -/

/-- An empty store. -/
def store0 : Store := { restaurants := [], pizzas := [], restaurant_pizzas := [] }

/-- A sample restaurant row. -/
def sampleRestaurant : Restaurant :=
  { id := 1, name := "Karens Pizza Shack", address := "address one" }

/-- A second sample restaurant row. -/
def otherRestaurant : Restaurant :=
  { id := 3, name := "Sanjays Pizza", address := "address two" }

/-- A sample pizza row. -/
def samplePizza : Pizza :=
  { id := 2, name := "Emma", ingredients := "Dough, Tomato Sauce, Cheese" }

/-- A sample association row joining `sampleRestaurant` and `samplePizza`. -/
def sampleRP : RestaurantPizza :=
  { id := 7, price := 10, restaurant_id := 1, pizza_id := 2 }

/-- An association row owned by `otherRestaurant`. -/
def otherRP : RestaurantPizza :=
  { id := 8, price := 25, restaurant_id := 3, pizza_id := 2 }

/-- A populated store: two restaurants, one pizza, one association each. -/
def store1 : Store :=
  { restaurants := [sampleRestaurant, otherRestaurant],
    pizzas := [samplePizza],
    restaurant_pizzas := [sampleRP, otherRP] }

/-! ### Helper lemmas -/

/-- A JSON value is `isNull` exactly when it is `Json.null`. -/
theorem Json.isNull_iff (v : Json) : v.isNull = true ↔ v = Json.null := by
  cases v <;> simp [Json.isNull]

/-- Primary-key lookup ignores the `pizzas` table. -/
theorem getRestaurantJson_set_pizzas (s : Store) (ps : List Pizza) (v : Json) :
    Store.getRestaurantJson { s with pizzas := ps } v = s.getRestaurantJson v := rfl

/-- A row returned by `Store.getRestaurant` carries the requested id. -/
theorem getRestaurant_id (s : Store) (id : Int) (r : Restaurant)
    (h : s.getRestaurant id = some r) : r.id = id := by
  have := List.find?_some h
  simpa using this

/-! ### Claim theorems -/

/-- Claim C4: for every id that does not resolve to an existing restaurant, GET
`/restaurants/<id>` and DELETE `/restaurants/<id>` both return status 404
with the exact body `{"error": "Restaurant not found"}`, and DELETE leaves
the store unchanged (GET takes no store and returns none, so it cannot
change it). -/
theorem get_delete_missing_restaurant_404 (s : Store) (id : Int)
    (h : s.getRestaurant id = none) :
    RestaurantByID_get s id =
      { status := 404,
        body := some (Json.obj [("error", Json.str "Restaurant not found")]) } ∧
    ∀ fail : Option String,
      RestaurantByID_delete s id fail =
        ({ status := 404,
           body := some (Json.obj [("error", Json.str "Restaurant not found")]) }, s) := by
  refine ⟨?_, fun fail => ?_⟩
  · simp [RestaurantByID_get, h, make_error_response]
  · simp [RestaurantByID_delete, h, make_error_response]

/-- Witness for C4 at the empty store and id 1. -/
theorem get_delete_missing_restaurant_404_witness :
    RestaurantByID_get store0 1 =
      { status := 404,
        body := some (Json.obj [("error", Json.str "Restaurant not found")]) } ∧
    RestaurantByID_delete store0 1 (some "boom") =
      ({ status := 404,
         body := some (Json.obj [("error", Json.str "Restaurant not found")]) }, store0) :=
  ⟨(get_delete_missing_restaurant_404 store0 1 rfl).1,
   (get_delete_missing_restaurant_404 store0 1 rfl).2 (some "boom")⟩

/-- Claim C5: for every DELETE on an existing restaurant, success is status 204
with the empty (non-JSON) body; a failing persistence step leaves the store
unchanged (rollback) and answers status 500 with body
`{"error": "Failed to delete restaurant: <msg>"}`. -/
theorem delete_existing_204_or_500 (s : Store) (id : Int) (r : Restaurant)
    (h : s.getRestaurant id = some r) :
    (RestaurantByID_delete s id none).1 = { status := 204, body := none } ∧
    ∀ msg : String,
      RestaurantByID_delete s id (some msg) =
        ({ status := 500,
           body := some (Json.obj
             [("error", Json.str ("Failed to delete restaurant: " ++ msg))]) }, s) := by
  refine ⟨?_, fun msg => ?_⟩
  · simp [RestaurantByID_delete, h]
  · simp [RestaurantByID_delete, h, make_error_response]

/-- Witness for C5 at a populated store. -/
theorem delete_existing_204_or_500_witness :
    (RestaurantByID_delete store1 1 none).1 = { status := 204, body := none } ∧
    RestaurantByID_delete store1 1 (some "db down") =
      ({ status := 500,
         body := some (Json.obj
           [("error", Json.str ("Failed to delete restaurant: " ++ "db down"))]) }, store1) :=
  ⟨(delete_existing_204_or_500 store1 1 sampleRestaurant rfl).1,
   (delete_existing_204_or_500 store1 1 sampleRestaurant rfl).2 "db down"⟩

/-- Claim C3: GET `/restaurants/<id>` on an existing restaurant returns status 200
with the base fields id, name, address (and no raw association collection)
plus a `pizzas` array holding exactly one entry per association owned by the
restaurant, where each entry takes id, name, ingredients from the linked
pizza and price from that specific association row. -/
theorem get_existing_restaurant_detail (s : Store) (id : Int) (r : Restaurant)
    (h : s.getRestaurant id = some r) :
    RestaurantByID_get s id =
      { status := 200,
        body := some (Json.obj
          [("id", Json.num r.id), ("name", Json.str r.name),
           ("address", Json.str r.address),
           ("pizzas", Json.arr ((ownedRPs s r.id).map (pizzaEntry s)))]) } ∧
    ((ownedRPs s r.id).map (pizzaEntry s)).length = (ownedRPs s r.id).length ∧
    ∀ (i : Nat) (rp : RestaurantPizza) (p : Pizza),
      (ownedRPs s r.id)[i]? = some rp →
      s.getPizza rp.pizza_id = some p →
      ((ownedRPs s r.id).map (pizzaEntry s))[i]? =
        some (Json.obj [("id", Json.num p.id), ("name", Json.str p.name),
          ("ingredients", Json.str p.ingredients), ("price", Json.num rp.price)]) := by
  refine ⟨?_, by simp, ?_⟩
  · simp [RestaurantByID_get, h]
  · intro i rp p hi hp
    simp [List.getElem?_map, hi, pizzaEntry, hp]

/-- Witness for C3 at a populated store: restaurant 1 owns exactly the
association priced 10 on pizza 2, and its detail entry shows that price. -/
theorem get_existing_restaurant_detail_witness :
    (RestaurantByID_get store1 1).status = 200 ∧
    ((ownedRPs store1 sampleRestaurant.id).map (pizzaEntry store1))[0]? =
      some (Json.obj [("id", Json.num 2), ("name", Json.str "Emma"),
        ("ingredients", Json.str "Dough, Tomato Sauce, Cheese"),
        ("price", Json.num 10)]) :=
  ⟨congrArg Response.status (get_existing_restaurant_detail store1 1 sampleRestaurant rfl).1,
   (get_existing_restaurant_detail store1 1 sampleRestaurant rfl).2.2 0 sampleRP samplePizza rfl rfl⟩

/-- Claim C9: the two list endpoints are read-only (they are functions of the store
alone that return only a response) and deterministic — two calls with no
intervening write give identical 200 arrays — with one object per row,
association collections excluded, and an empty array on an empty table. -/
theorem list_endpoints_readonly_deterministic (s : Store) :
    Restaurants_get s = Restaurants_get s ∧
    Pizzas_get s = Pizzas_get s ∧
    (Restaurants_get s).status = 200 ∧
    (Pizzas_get s).status = 200 ∧
    (Restaurants_get s).body = some (Json.arr (s.restaurants.map Restaurant.to_dict)) ∧
    (Pizzas_get s).body = some (Json.arr (s.pizzas.map Pizza.to_dict)) ∧
    (∀ (i : Nat) (r : Restaurant), s.restaurants[i]? = some r →
      (s.restaurants.map Restaurant.to_dict)[i]? =
        some (Json.obj [("id", Json.num r.id), ("name", Json.str r.name),
          ("address", Json.str r.address)])) ∧
    (∀ (i : Nat) (p : Pizza), s.pizzas[i]? = some p →
      (s.pizzas.map Pizza.to_dict)[i]? =
        some (Json.obj [("id", Json.num p.id), ("name", Json.str p.name),
          ("ingredients", Json.str p.ingredients)])) ∧
    (s.restaurants = [] → (Restaurants_get s).body = some (Json.arr [])) ∧
    (s.pizzas = [] → (Pizzas_get s).body = some (Json.arr [])) := by
  refine ⟨rfl, rfl, rfl, rfl, rfl, rfl, ?_, ?_, ?_, ?_⟩
  · intro i r hi
    simp [List.getElem?_map, hi, Restaurant.to_dict]
  · intro i p hi
    simp [List.getElem?_map, hi, Pizza.to_dict]
  · intro hnil
    simp [Restaurants_get, hnil]
  · intro hnil
    simp [Pizzas_get, hnil]

/-- Witness for C9 at a populated store: the first serialized restaurant row. -/
theorem list_endpoints_readonly_deterministic_witness :
    (Restaurants_get store1).status = 200 ∧
    (store1.restaurants.map Restaurant.to_dict)[0]? =
      some (Json.obj [("id", Json.num 1), ("name", Json.str "Karens Pizza Shack"),
        ("address", Json.str "address one")]) :=
  ⟨(list_endpoints_readonly_deterministic store1).2.2.1,
   (list_endpoints_readonly_deterministic store1).2.2.2.2.2.2.1 0 sampleRestaurant rfl⟩

/-- A value on which `Restaurant.query.get` finds a row is not `None`. -/
theorem getRestaurantJson_some_not_null (s : Store) (v : Json) (r : Restaurant)
    (h : s.getRestaurantJson v = some r) : v.isNull = false := by
  cases v <;> first
    | rfl
    | simp [Store.getRestaurantJson, Json.asId] at h

/-- A value on which `Pizza.query.get` finds a row is not `None`. -/
theorem getPizzaJson_some_not_null (s : Store) (v : Json) (p : Pizza)
    (h : s.getPizzaJson v = some p) : v.isNull = false := by
  cases v <;> first
    | rfl
    | simp [Store.getPizzaJson, Json.asId] at h

/-- Claim C6: a successful DELETE on an existing restaurant removes exactly that
restaurant row and exactly its owned association rows: the pizza table is
unchanged, a restaurant row survives iff it is an old row with a different
id, an association row survives iff it is an old row owned by a different
restaurant, the association count drops by exactly the number of owned rows,
and a subsequent GET for the deleted id returns 404. -/
theorem delete_cascade_frame (s : Store) (id : Int) (r : Restaurant)
    (h : s.getRestaurant id = some r) :
    (RestaurantByID_delete s id none).1 = { status := 204, body := none } ∧
    (RestaurantByID_delete s id none).2.pizzas = s.pizzas ∧
    (∀ x : Restaurant, x ∈ (RestaurantByID_delete s id none).2.restaurants ↔
        x ∈ s.restaurants ∧ x.id ≠ id) ∧
    (∀ rp : RestaurantPizza,
        rp ∈ (RestaurantByID_delete s id none).2.restaurant_pizzas ↔
        rp ∈ s.restaurant_pizzas ∧ rp.restaurant_id ≠ id) ∧
    (RestaurantByID_delete s id none).2.restaurant_pizzas.length +
        (ownedRPs s id).length = s.restaurant_pizzas.length ∧
    RestaurantByID_get (RestaurantByID_delete s id none).2 id =
      { status := 404,
        body := some (Json.obj [("error", Json.str "Restaurant not found")]) } := by
  have hid : r.id = id := getRestaurant_id s id r h
  subst hid
  refine ⟨by simp [RestaurantByID_delete, h], by simp [RestaurantByID_delete, h],
    ?_, ?_, ?_, ?_⟩
  · intro x
    simp [RestaurantByID_delete, h, List.mem_filter]
  · intro rp
    simp [RestaurantByID_delete, h, List.mem_filter]
  · have hlen := List.length_eq_length_filter_add
      (l := s.restaurant_pizzas) (fun rp => rp.restaurant_id == r.id)
    simp only [] at hlen
    simp only [RestaurantByID_delete, h, ownedRPs]
    omega
  · have hnone :
        Store.getRestaurant (RestaurantByID_delete s r.id none).2 r.id = none := by
      simp only [RestaurantByID_delete, h]
      simp only [Store.getRestaurant]
      rw [List.find?_eq_none]
      intro x hx
      have := (List.mem_filter.mp hx).2
      simpa using this
    simp [RestaurantByID_get, hnone, make_error_response]

/-- Witness for C6 at a populated store: deleting restaurant 1 keeps the
pizza table and the association owned by restaurant 3, removes one
association, and a repeated GET answers 404. -/
theorem delete_cascade_frame_witness :
    (RestaurantByID_delete store1 1 none).1 = { status := 204, body := none } ∧
    (RestaurantByID_delete store1 1 none).2.pizzas = store1.pizzas ∧
    (otherRP ∈ (RestaurantByID_delete store1 1 none).2.restaurant_pizzas ↔
      otherRP ∈ store1.restaurant_pizzas ∧ otherRP.restaurant_id ≠ 1) ∧
    (RestaurantByID_delete store1 1 none).2.restaurant_pizzas.length +
      (ownedRPs store1 1).length = store1.restaurant_pizzas.length ∧
    RestaurantByID_get (RestaurantByID_delete store1 1 none).2 1 =
      { status := 404,
        body := some (Json.obj [("error", Json.str "Restaurant not found")]) } :=
  ⟨(delete_cascade_frame store1 1 sampleRestaurant rfl).1,
   (delete_cascade_frame store1 1 sampleRestaurant rfl).2.1,
   (delete_cascade_frame store1 1 sampleRestaurant rfl).2.2.2.1 otherRP,
   (delete_cascade_frame store1 1 sampleRestaurant rfl).2.2.2.2.1,
   (delete_cascade_frame store1 1 sampleRestaurant rfl).2.2.2.2.2⟩

/-- Claim C1: POST `/restaurant_pizzas` validates in a fixed short-circuiting
order.  (a) A `None`/absent `price`, `pizza_id` or `restaurant_id` answers
400 with the missing-required-fields body and leaves the store unchanged.
(b) With all three present, an unresolved `restaurant_id` answers 404
`{"error": "Restaurant not found"}` whatever the pizza table holds — the
pizza lookup does not decide the response.  (c) With the restaurant
resolved, an unresolved `pizza_id` answers 404 `{"error": "Pizza not
found"}`.  (d) Only when all checks pass is the association row constructed
and appended to the store, answering 201. -/
theorem post_validation_order (s : Store) (kvs : List (String × Json))
    (co : CommitOutcome) :
    (((dictGet kvs "price").isNull = true ∨ (dictGet kvs "pizza_id").isNull = true ∨
        (dictGet kvs "restaurant_id").isNull = true) →
      RestaurantPizzas_post s (Json.obj kvs) co =
        PostOutcome.response
          { status := 400,
            body := some (Json.obj [("errors", Json.arr
              [Json.str "Missing required fields: price, pizza_id, restaurant_id"])]) } s) ∧
    ((dictGet kvs "price").isNull = false →
     (dictGet kvs "pizza_id").isNull = false →
     (dictGet kvs "restaurant_id").isNull = false →
      (s.getRestaurantJson (dictGet kvs "restaurant_id") = none →
        ∀ ps : List Pizza,
          RestaurantPizzas_post { s with pizzas := ps } (Json.obj kvs) co =
            PostOutcome.response
              { status := 404,
                body := some (Json.obj [("error", Json.str "Restaurant not found")]) }
              { s with pizzas := ps }) ∧
      (∀ restaurant : Restaurant,
        s.getRestaurantJson (dictGet kvs "restaurant_id") = some restaurant →
        s.getPizzaJson (dictGet kvs "pizza_id") = none →
        RestaurantPizzas_post s (Json.obj kvs) co =
          PostOutcome.response
            { status := 404,
              body := some (Json.obj [("error", Json.str "Pizza not found")]) } s) ∧
      (∀ (restaurant : Restaurant) (pizza : Pizza) (v : Int),
        s.getRestaurantJson (dictGet kvs "restaurant_id") = some restaurant →
        s.getPizzaJson (dictGet kvs "pizza_id") = some pizza →
        validate_price (dictGet kvs "price") = Except.ok v →
        RestaurantPizzas_post s (Json.obj kvs) CommitOutcome.ok =
          PostOutcome.response
            { status := 201,
              body := some (RestaurantPizza.to_dict
                { id := s.nextRpId, price := v,
                  restaurant_id := restaurant.id, pizza_id := pizza.id }
                restaurant pizza) }
            { s with restaurant_pizzas := s.restaurant_pizzas ++
                [{ id := s.nextRpId, price := v,
                   restaurant_id := restaurant.id, pizza_id := pizza.id }] })) := by
  constructor
  · rintro (h | h | h) <;>
      simp [RestaurantPizzas_post, h, make_validation_error_response]
  · intro hp hq hr
    refine ⟨?_, ?_, ?_⟩
    · intro hnone ps
      have hnone2 :
          Store.getRestaurantJson { s with pizzas := ps } (dictGet kvs "restaurant_id") = none := by
        rw [getRestaurantJson_set_pizzas]; exact hnone
      simp [RestaurantPizzas_post, hp, hq, hr, hnone2, make_error_response]
    · intro restaurant hres hpiz
      simp [RestaurantPizzas_post, hp, hq, hr, hres, hpiz, make_error_response]
    · intro restaurant pizza v hres hpiz hval
      simp [RestaurantPizzas_post, hp, hq, hr, hres, hpiz, hval]

/-- Witness for C1: the four validation outcomes at concrete requests
against the populated store. -/
theorem post_validation_order_witness :
    RestaurantPizzas_post store1
        (Json.obj [("pizza_id", Json.num 2), ("restaurant_id", Json.num 1)])
        CommitOutcome.ok =
      PostOutcome.response
        { status := 400,
          body := some (Json.obj [("errors", Json.arr
            [Json.str "Missing required fields: price, pizza_id, restaurant_id"])]) }
        store1 ∧
    RestaurantPizzas_post store1
        (Json.obj [("price", Json.num 10), ("pizza_id", Json.num 2),
          ("restaurant_id", Json.num 99)]) CommitOutcome.ok =
      PostOutcome.response
        { status := 404,
          body := some (Json.obj [("error", Json.str "Restaurant not found")]) }
        store1 ∧
    RestaurantPizzas_post store1
        (Json.obj [("price", Json.num 10), ("pizza_id", Json.num 99),
          ("restaurant_id", Json.num 1)]) CommitOutcome.ok =
      PostOutcome.response
        { status := 404,
          body := some (Json.obj [("error", Json.str "Pizza not found")]) }
        store1 ∧
    RestaurantPizzas_post store1
        (Json.obj [("price", Json.num 10), ("pizza_id", Json.num 2),
          ("restaurant_id", Json.num 1)]) CommitOutcome.ok =
      PostOutcome.response
        { status := 201,
          body := some (RestaurantPizza.to_dict
            { id := 9, price := 10, restaurant_id := 1, pizza_id := 2 }
            sampleRestaurant samplePizza) }
        { store1 with restaurant_pizzas :=
            store1.restaurant_pizzas ++
              [{ id := 9, price := 10, restaurant_id := 1, pizza_id := 2 }] } :=
  ⟨(post_validation_order store1
      [("pizza_id", Json.num 2), ("restaurant_id", Json.num 1)] CommitOutcome.ok).1
      (Or.inl rfl),
   ((post_validation_order store1
      [("price", Json.num 10), ("pizza_id", Json.num 2), ("restaurant_id", Json.num 99)]
      CommitOutcome.ok).2 rfl rfl rfl).1 rfl store1.pizzas,
   ((post_validation_order store1
      [("price", Json.num 10), ("pizza_id", Json.num 99), ("restaurant_id", Json.num 1)]
      CommitOutcome.ok).2 rfl rfl rfl).2.1 sampleRestaurant rfl rfl,
   ((post_validation_order store1
      [("price", Json.num 10), ("pizza_id", Json.num 2), ("restaurant_id", Json.num 1)]
      CommitOutcome.ok).2 rfl rfl rfl).2.2 sampleRestaurant samplePizza 10 rfl rfl rfl⟩

/-- Past the presence and existence checks, an out-of-range price answers
400 with the price-range message and leaves the store unchanged (shared
stepping stone for the price claims). -/
theorem post_out_of_range_aux (s : Store) (kvs : List (String × Json))
    (co : CommitOutcome) (restaurant : Restaurant) (pizza : Pizza) (v : Int)
    (hprice : dictGet kvs "price" = Json.num v)
    (hres : s.getRestaurantJson (dictGet kvs "restaurant_id") = some restaurant)
    (hpiz : s.getPizzaJson (dictGet kvs "pizza_id") = some pizza)
    (hout : v < 1 ∨ 30 < v) :
    RestaurantPizzas_post s (Json.obj kvs) co =
      PostOutcome.response
        { status := 400,
          body := some (Json.obj [("errors", Json.arr [Json.str priceErrorMessage])]) }
        s := by
  have hp : (dictGet kvs "price").isNull = false := by rw [hprice]; rfl
  have hq : (dictGet kvs "pizza_id").isNull = false :=
    getPizzaJson_some_not_null s _ pizza hpiz
  have hr : (dictGet kvs "restaurant_id").isNull = false :=
    getRestaurantJson_some_not_null s _ restaurant hres
  have hval : validate_price (dictGet kvs "price") = Except.error priceErrorMessage := by
    rw [hprice]
    simp only [validate_price, ite_eq_right_iff]
    intro hin
    omega
  simp [RestaurantPizzas_post, hp, hq, hr, hres, hpiz, hval,
    make_validation_error_response]

/-- Past the presence and existence checks, an in-range price with a
successful commit appends the association row and answers 201 (shared
stepping stone for the price claims). -/
theorem post_in_range_aux (s : Store) (kvs : List (String × Json))
    (restaurant : Restaurant) (pizza : Pizza) (v : Int)
    (hprice : dictGet kvs "price" = Json.num v)
    (hres : s.getRestaurantJson (dictGet kvs "restaurant_id") = some restaurant)
    (hpiz : s.getPizzaJson (dictGet kvs "pizza_id") = some pizza)
    (hin : 1 ≤ v ∧ v ≤ 30) :
    RestaurantPizzas_post s (Json.obj kvs) CommitOutcome.ok =
      PostOutcome.response
        { status := 201,
          body := some (RestaurantPizza.to_dict
            { id := s.nextRpId, price := v,
              restaurant_id := restaurant.id, pizza_id := pizza.id }
            restaurant pizza) }
        { s with restaurant_pizzas := s.restaurant_pizzas ++
            [{ id := s.nextRpId, price := v,
               restaurant_id := restaurant.id, pizza_id := pizza.id }] } := by
  have hp : (dictGet kvs "price").isNull = false := by rw [hprice]; rfl
  have hq : (dictGet kvs "pizza_id").isNull = false :=
    getPizzaJson_some_not_null s _ pizza hpiz
  have hr : (dictGet kvs "restaurant_id").isNull = false :=
    getRestaurantJson_some_not_null s _ restaurant hres
  have hval : validate_price (dictGet kvs "price") = Except.ok v := by
    rw [hprice]; simp [validate_price, hin]
  simp [RestaurantPizzas_post, hp, hq, hr, hres, hpiz, hval]

/-- Claim C2: past the presence and existence checks, a price outside [1, 30]
prevents the write — the store is left as it was (rollback) — and answers
400 with an `errors` array carrying the price-range message, while the
boundary prices 1 and 30 are accepted: the association row is appended and
the answer is 201. -/
theorem post_price_range (s : Store) (kvs : List (String × Json))
    (co : CommitOutcome) (restaurant : Restaurant) (pizza : Pizza) (v : Int)
    (hprice : dictGet kvs "price" = Json.num v)
    (hres : s.getRestaurantJson (dictGet kvs "restaurant_id") = some restaurant)
    (hpiz : s.getPizzaJson (dictGet kvs "pizza_id") = some pizza) :
    ((v < 1 ∨ 30 < v) →
      RestaurantPizzas_post s (Json.obj kvs) co =
        PostOutcome.response
          { status := 400,
            body := some (Json.obj [("errors", Json.arr [Json.str priceErrorMessage])]) }
          s) ∧
    ((v = 1 ∨ v = 30) →
      RestaurantPizzas_post s (Json.obj kvs) CommitOutcome.ok =
        PostOutcome.response
          { status := 201,
            body := some (RestaurantPizza.to_dict
              { id := s.nextRpId, price := v,
                restaurant_id := restaurant.id, pizza_id := pizza.id }
              restaurant pizza) }
          { s with restaurant_pizzas := s.restaurant_pizzas ++
              [{ id := s.nextRpId, price := v,
                 restaurant_id := restaurant.id, pizza_id := pizza.id }] }) := by
  constructor
  · intro hout
    exact post_out_of_range_aux s kvs co restaurant pizza v hprice hres hpiz hout
  · intro hbound
    have hin : 1 ≤ v ∧ v ≤ 30 := by rcases hbound with h | h <;> omega
    exact post_in_range_aux s kvs restaurant pizza v hprice hres hpiz hin

/-- Witness for C2: against the populated store, price 0 is rejected with
the price-range message and no change, price 30 is persisted with 201. -/
theorem post_price_range_witness :
    RestaurantPizzas_post store1
        (Json.obj [("price", Json.num 0), ("pizza_id", Json.num 2),
          ("restaurant_id", Json.num 1)]) CommitOutcome.ok =
      PostOutcome.response
        { status := 400,
          body := some (Json.obj [("errors", Json.arr [Json.str priceErrorMessage])]) }
        store1 ∧
    RestaurantPizzas_post store1
        (Json.obj [("price", Json.num 30), ("pizza_id", Json.num 2),
          ("restaurant_id", Json.num 1)]) CommitOutcome.ok =
      PostOutcome.response
        { status := 201,
          body := some (RestaurantPizza.to_dict
            { id := 9, price := 30, restaurant_id := 1, pizza_id := 2 }
            sampleRestaurant samplePizza) }
        { store1 with restaurant_pizzas :=
            store1.restaurant_pizzas ++
              [{ id := 9, price := 30, restaurant_id := 1, pizza_id := 2 }] } :=
  ⟨(post_price_range store1
      [("price", Json.num 0), ("pizza_id", Json.num 2), ("restaurant_id", Json.num 1)]
      CommitOutcome.ok sampleRestaurant samplePizza 0 rfl rfl rfl).1
      (Or.inl (by decide)),
   (post_price_range store1
      [("price", Json.num 30), ("pizza_id", Json.num 2), ("restaurant_id", Json.num 1)]
      CommitOutcome.ok sampleRestaurant samplePizza 30 rfl rfl rfl).2
      (Or.inr rfl)⟩

/-- Claim C10: the presence check compares against `None`, not truthiness: a
request whose `price` is the (falsy) integer 0 passes the presence check —
`Json.num 0` is not `isNull` — reaches the existence and range checks, and
with resolvable ids is rejected with the 400 price-range error, whose
message differs from the missing-required-fields message. -/
theorem post_price_zero_passes_presence (s : Store) (kvs : List (String × Json))
    (co : CommitOutcome) (restaurant : Restaurant) (pizza : Pizza)
    (hprice : dictGet kvs "price" = Json.num 0)
    (hres : s.getRestaurantJson (dictGet kvs "restaurant_id") = some restaurant)
    (hpiz : s.getPizzaJson (dictGet kvs "pizza_id") = some pizza) :
    RestaurantPizzas_post s (Json.obj kvs) co =
      PostOutcome.response
        { status := 400,
          body := some (Json.obj [("errors", Json.arr [Json.str priceErrorMessage])]) }
        s ∧
    priceErrorMessage ≠ "Missing required fields: price, pizza_id, restaurant_id" ∧
    Json.isNull (Json.num 0) = false := by
  refine ⟨?_, by decide, rfl⟩
  exact post_out_of_range_aux s kvs co restaurant pizza 0 hprice hres hpiz
    (Or.inl (by decide))

/-- Witness for C10: a concrete zero-price request against the populated
store. -/
theorem post_price_zero_passes_presence_witness :
    RestaurantPizzas_post store1
        (Json.obj [("price", Json.num 0), ("pizza_id", Json.num 2),
          ("restaurant_id", Json.num 1)]) CommitOutcome.integrityError =
      PostOutcome.response
        { status := 400,
          body := some (Json.obj [("errors", Json.arr [Json.str priceErrorMessage])]) }
        store1 ∧
    priceErrorMessage ≠ "Missing required fields: price, pizza_id, restaurant_id" ∧
    Json.isNull (Json.num 0) = false :=
  post_price_zero_passes_presence store1
    [("price", Json.num 0), ("pizza_id", Json.num 2), ("restaurant_id", Json.num 1)]
    CommitOutcome.integrityError sampleRestaurant samplePizza rfl rfl rfl

/-- Claim C7: no failing POST `/restaurant_pizzas` persists anything: whenever the
handler answers with a status other than 201 — missing field, unresolved id,
out-of-range price, integrity violation, unexpected commit error — the store
it leaves behind is the one it started from, and likewise when the handler
crashes on a non-object body. -/
theorem post_failure_preserves_store (s : Store) (body : Json) (co : CommitOutcome) :
    (∀ (resp : Response) (sFinal : Store),
      RestaurantPizzas_post s body co = PostOutcome.response resp sFinal →
      resp.status ≠ 201 → sFinal = s) ∧
    (∀ sFinal : Store,
      RestaurantPizzas_post s body co = PostOutcome.crash sFinal → sFinal = s) := by
  constructor
  · intro resp sFinal h hstat
    simp only [RestaurantPizzas_post] at h
    repeat' split at h
    all_goals first
      | (injection h with h1 h2; subst h1; subst h2; first | rfl | simp at hstat)
      | injection h
  · intro sFinal h
    simp only [RestaurantPizzas_post] at h
    repeat' split at h
    all_goals first
      | (injection h with h1; subst h1; rfl)
      | injection h

/-- Witness for C7: a request with a missing price fails with 400 and hands
back the untouched populated store. -/
theorem post_failure_preserves_store_witness :
    RestaurantPizzas_post store1
        (Json.obj [("pizza_id", Json.num 2), ("restaurant_id", Json.num 1)])
        CommitOutcome.ok =
      PostOutcome.response
        { status := 400,
          body := some (Json.obj [("errors", Json.arr
            [Json.str "Missing required fields: price, pizza_id, restaurant_id"])]) }
        store1 ∧
    (400 : Nat) ≠ 201 ∧
    store1 = store1 :=
  ⟨rfl, by decide,
   (post_failure_preserves_store store1
      (Json.obj [("pizza_id", Json.num 2), ("restaurant_id", Json.num 1)])
      CommitOutcome.ok).1
      { status := 400,
        body := some (Json.obj [("errors", Json.arr
          [Json.str "Missing required fields: price, pizza_id, restaurant_id"])]) }
      store1 rfl (by decide)⟩

/-- Claim C8 counterexample: a request body that is valid JSON but not an object —
here the array `[]` — makes `data.get` raise `AttributeError` outside the
`try` block, so the handler produces no response at all, let alone a JSON
body with an `error`/`errors` key: the claim fails for non-object bodies. -/
theorem post_nonobject_body_no_error_response :
    RestaurantPizzas_post store0 (Json.arr []) CommitOutcome.ok =
      PostOutcome.crash store0 ∧
    PostOutcome.isResponse
      (RestaurantPizzas_post store0 (Json.arr []) CommitOutcome.ok) = false :=
  ⟨rfl, rfl⟩

/-- Claim C8 as amended: for every request to every endpoint whose body — where one
is read at all — parses to a JSON object, every failure response carries a
JSON body with an `error` or `errors` key and a non-200 status, and no
failure is reported with status 200: the list endpoints never fail, a
non-200 GET detail is a 404 with an error body, a non-204 DELETE is a
non-200 status with an error body, and the POST handler always answers (it
never crashes on an object body) with every non-201 answer a non-200 status
carrying an error or errors key. -/
theorem error_responses_carry_error_keys (s : Store) (id : Int)
    (fail : Option String) (co : CommitOutcome) :
    (Restaurants_get s).status = 200 ∧
    (Pizzas_get s).status = 200 ∧
    ((RestaurantByID_get s id).status ≠ 200 →
      (RestaurantByID_get s id).status = 404 ∧
      hasErrorKeys (RestaurantByID_get s id).body = true) ∧
    ((RestaurantByID_delete s id fail).1.status ≠ 204 →
      (RestaurantByID_delete s id fail).1.status ≠ 200 ∧
      hasErrorKeys (RestaurantByID_delete s id fail).1.body = true) ∧
    (∀ kvs : List (String × Json),
      (RestaurantPizzas_post s (Json.obj kvs) co).isResponse = true) ∧
    (∀ (kvs : List (String × Json)) (resp : Response) (sFinal : Store),
      RestaurantPizzas_post s (Json.obj kvs) co = PostOutcome.response resp sFinal →
      resp.status ≠ 201 →
      resp.status ≠ 200 ∧ hasErrorKeys resp.body = true) := by
  refine ⟨rfl, rfl, ?_, ?_, ?_, ?_⟩
  · intro hne
    cases hg : s.getRestaurant id with
    | none =>
        constructor <;>
          simp [RestaurantByID_get, hg, make_error_response, hasErrorKeys]
    | some r => exact absurd (by simp [RestaurantByID_get, hg]) hne
  · intro hne
    cases hg : s.getRestaurant id with
    | none =>
        constructor <;>
          simp [RestaurantByID_delete, hg, make_error_response, hasErrorKeys]
    | some r =>
        cases fail with
        | none => exact absurd (by simp [RestaurantByID_delete, hg]) hne
        | some msg =>
            constructor <;>
              simp [RestaurantByID_delete, hg, make_error_response, hasErrorKeys]
  · intro kvs
    simp only [RestaurantPizzas_post]
    repeat' split
    all_goals rfl
  · intro kvs resp sFinal h hstat
    simp only [RestaurantPizzas_post] at h
    repeat' split at h
    all_goals
      injection h with h1 h2
    all_goals
      subst h1
    all_goals
      subst h2
    all_goals first
      | exact ⟨by simp [make_validation_error_response, make_error_response], rfl⟩
      | simp at hstat

/-- Witness for the amended claim C8: a nonexistent id gives a 404 with an error
key, and an object-bodied POST always yields a response. -/
theorem error_responses_carry_error_keys_witness :
    ((RestaurantByID_get store1 99).status = 404 ∧
      hasErrorKeys (RestaurantByID_get store1 99).body = true) ∧
    (RestaurantPizzas_post store1 (Json.obj []) CommitOutcome.ok).isResponse = true :=
  ⟨(error_responses_carry_error_keys store1 99 (some "x") CommitOutcome.ok).2.2.1
      (by decide),
   (error_responses_carry_error_keys store1 99 (some "x") CommitOutcome.ok).2.2.2.2.1 []⟩

end PizzaAPI
